import Mathlib

/-!
Verification development for the christmas-tree-2025 interactive display.

The TypeScript source is embedded shallowly over exact rational arithmetic:
JavaScript numbers become `ℚ`, transcendental library functions
(`Math.sin`, `Math.cos`, `Math.acos`, `Math.pow`, `Math.PI`) become explicit
parameters bundled in `MathOps`, and `Math.random()` becomes an explicit
stream `rnd : ℕ → ℚ` of draws in `[0,1)`, consumed in the order the source
calls `Math.random()`.  Fallible operations (array indexing that would hit
`undefined` in JavaScript, `Float32Array` construction with a negative
length) return `Option`.

Sources embedded:
  - src/utils/geometry.ts            (generateTreePositions, generateSpherePositions)
  - src/services/visionService.ts    (VisionService.detect and its gesture logic)
  - src/components/ChristmasCanvas.tsx (animate: morph loop, snow update,
                                        chase choreography, star pulse;
                                        targetMode effect)
  - src/App.tsx                      (gesture → mode effect)
-/

/-- Abstract interface for the transcendental functions the source calls.
Theorems assume only the identities they need (for instance
`sinf a ^ 2 + cosf a ^ 2 = 1`), so every statement holds for the real
`sin`/`cos` in particular. -/
structure MathOps where
  sinf : ℚ → ℚ
  cosf : ℚ → ℚ
  acosf : ℚ → ℚ
  powf : ℚ → ℚ → ℚ
  pi : ℚ

/-- A 3D point with exact rational coordinates. -/
@[ext]
structure Vec3 where
  x : ℚ
  y : ℚ
  z : ℚ
deriving DecidableEq

/-- Trivial instantiation of `MathOps` (with `sinf = 0`, `cosf = 1`, so that
`sinf a ^ 2 + cosf a ^ 2 = 1` holds) used to exercise theorems on concrete
inputs. -/
def trivOps : MathOps :=
  { sinf := fun _ => 0
    cosf := fun _ => 1
    acosf := fun _ => 0
    powf := fun _ _ => 0
    pi := 0 }

/-- The all-zero random stream; every draw lies in `[0,1)`. -/
def rndZero : ℕ → ℚ := fun _ => 0

/-! ### src/utils/geometry.ts — generateTreePositions

The loop body consumes four `Math.random()` draws per particle, in source
order: the height draw (inside `Math.pow(Math.random(), 1.5)`), the spiral
angle offset, the radius scatter factor, and the layer scatter.  Particle `i`
therefore reads draws `4*i`, `4*i+1`, `4*i+2`, `4*i+3`. -/

/-- `const y = hRand * height - height / 2` with `hRand = Math.pow(rnd, 1.5)`,
`height = 16`. -/
def treeY (M : MathOps) (rnd : ℕ → ℚ) (i : ℕ) : ℚ :=
  M.powf (rnd (4 * i)) 1.5 * 16 - 8

/-- `const yNorm = (y + height / 2) / height`. -/
def treeYNorm (M : MathOps) (rnd : ℕ → ℚ) (i : ℕ) : ℚ :=
  (treeY M rnd i + 8) / 16

/-- `const coneRadius = (1 - Math.pow(yNorm, 0.8)) * maxBaseRadius` with
`maxBaseRadius = 7.5`. -/
def treeConeRadius (M : MathOps) (rnd : ℕ → ℚ) (i : ℕ) : ℚ :=
  (1 - M.powf (treeYNorm M rnd i) 0.8) * 7.5

/-- `const layerEffect = Math.sin(yNorm * Math.PI * 10) * 0.5 + 0.5`. -/
def treeLayerEffect (M : MathOps) (rnd : ℕ → ℚ) (i : ℕ) : ℚ :=
  M.sinf (treeYNorm M rnd i * M.pi * 10) * 0.5 + 0.5

/-- `const spiralAngle = y * 2.5 + Math.random() * Math.PI * 2`. -/
def treeSpiralAngle (M : MathOps) (rnd : ℕ → ℚ) (i : ℕ) : ℚ :=
  treeY M rnd i * 2.5 + rnd (4 * i + 1) * M.pi * 2

/-- `const r = coneRadius * (0.6 + 0.4 * Math.random()) + layerEffect * 1.5 * Math.random()`. -/
def treeR (M : MathOps) (rnd : ℕ → ℚ) (i : ℕ) : ℚ :=
  treeConeRadius M rnd i * (0.6 + 0.4 * rnd (4 * i + 2)) +
    treeLayerEffect M rnd i * 1.5 * rnd (4 * i + 3)

/-- `const finalR = Math.max(0, r)`. -/
def treeFinalR (M : MathOps) (rnd : ℕ → ℚ) (i : ℕ) : ℚ :=
  max 0 (treeR M rnd i)

/-- The triple written to `positions[3i .. 3i+2]`:
`(finalR * cos(spiralAngle), y, finalR * sin(spiralAngle))`. -/
def treePoint (M : MathOps) (rnd : ℕ → ℚ) (i : ℕ) : Vec3 :=
  { x := treeFinalR M rnd i * M.cosf (treeSpiralAngle M rnd i)
    y := treeY M rnd i
    z := treeFinalR M rnd i * M.sinf (treeSpiralAngle M rnd i) }

/-- The flat position array produced by `generateTreePositions(count)`,
laid out `[x0, y0, z0, x1, y1, z1, ...]` like the `Float32Array` it fills. -/
def generateTreePositions (M : MathOps) (rnd : ℕ → ℚ) (count : ℕ) : List ℚ :=
  (List.range count).flatMap fun i =>
    [(treePoint M rnd i).x, (treePoint M rnd i).y, (treePoint M rnd i).z]

/-! ### src/utils/geometry.ts — generateSpherePositions

Four draws per particle in source order: `theta`, the `phi` draw, the
regime selector `rand`, and the `rNorm` draw (exactly one of the two
branches runs, so both read draw `4*i+3`). -/

/-- `const theta = Math.random() * Math.PI * 2`. -/
def sphereTheta (M : MathOps) (rnd : ℕ → ℚ) (i : ℕ) : ℚ :=
  rnd (4 * i) * M.pi * 2

/-- `const phi = Math.acos(2 * Math.random() - 1)`. -/
def spherePhi (M : MathOps) (rnd : ℕ → ℚ) (i : ℕ) : ℚ :=
  M.acosf (2 * rnd (4 * i + 1) - 1)

/-- `rNorm`: with the regime selector below `0.4`, `Math.random() * 0.3`
(inner shell); otherwise `0.3 + Math.random() * 0.7` (outer volume). -/
def sphereRNorm (rnd : ℕ → ℚ) (i : ℕ) : ℚ :=
  if rnd (4 * i + 2) < 0.4 then
    rnd (4 * i + 3) * 0.3
  else
    0.3 + rnd (4 * i + 3) * 0.7

/-- `const r = minRadius + rNorm * (maxRadius - minRadius)` with
`minRadius = 1.5`, `maxRadius = 8.0`. -/
def sphereRadius (rnd : ℕ → ℚ) (i : ℕ) : ℚ :=
  1.5 + sphereRNorm rnd i * (8.0 - 1.5)

/-- The triple written to `positions[3i .. 3i+2]`:
`(r sin φ cos θ, r sin φ sin θ, r cos φ)`. -/
def spherePoint (M : MathOps) (rnd : ℕ → ℚ) (i : ℕ) : Vec3 :=
  { x := sphereRadius rnd i * M.sinf (spherePhi M rnd i) * M.cosf (sphereTheta M rnd i)
    y := sphereRadius rnd i * M.sinf (spherePhi M rnd i) * M.sinf (sphereTheta M rnd i)
    z := sphereRadius rnd i * M.cosf (spherePhi M rnd i) }

/-- The flat position array produced by `generateSpherePositions(count)`. -/
def generateSpherePositions (M : MathOps) (rnd : ℕ → ℚ) (count : ℕ) : List ℚ :=
  (List.range count).flatMap fun i =>
    [(spherePoint M rnd i).x, (spherePoint M rnd i).y, (spherePoint M rnd i).z]

/-- `new Float32Array(n)`: a negative length throws a `RangeError` in
JavaScript (modelled as `none`); otherwise the array starts zero-filled. -/
def float32ArrayNew (n : ℤ) : Option (List ℚ) :=
  if n < 0 then none else some (List.replicate n.toNat 0)

/-- `generateTreePositions` on an arbitrary (possibly negative) integer
count, as callable from JavaScript: `new Float32Array(count * 3)` fails for
`count < 0`; for `count ≤ 0` the `for` loop body never runs. -/
def generateTreePositionsJS (M : MathOps) (rnd : ℕ → ℚ) (count : ℤ) :
    Option (List ℚ) :=
  match float32ArrayNew (count * 3) with
  | none => none
  | some _ => some (generateTreePositions M rnd count.toNat)

/-- `generateSpherePositions` on an arbitrary integer count. -/
def generateSpherePositionsJS (M : MathOps) (rnd : ℕ → ℚ) (count : ℤ) :
    Option (List ℚ) :=
  match float32ArrayNew (count * 3) with
  | none => none
  | some _ => some (generateSpherePositions M rnd count.toNat)

/-! ### src/services/visionService.ts — gesture classification -/

/-- One MediaPipe hand landmark; the gesture logic only reads `x` and `y`. -/
@[ext]
structure Landmark where
  x : ℚ
  y : ℚ
deriving DecidableEq

/-- Squared planar distance.  The source compares
`Math.hypot(dx, dy) < Math.hypot(ex, ey) * 1.2`; since both sides are
nonnegative this is exactly `25 * (dx² + dy²) < 36 * (ex² + ey²)`
(because `1.2² = 36/25`), which is the decidable form used below.
`hypot_lt_slack_iff` proves the equivalence over `ℝ`. -/
def planarDistSq (p q : Landmark) : ℚ :=
  (p.x - q.x) ^ 2 + (p.y - q.y) ^ 2

/-- One iteration of the curl loop: look up the tip and PIP landmarks
(`undefined` access in JavaScript is `none`) and test
`dTip < dPip * 1.2` in the squared form. -/
def fingerCurled (lm : List Landmark) (wrist : Landmark) (tipIdx pipIdx : ℕ) :
    Option Bool := do
  let tip ← lm[tipIdx]?
  let pip ← lm[pipIdx]?
  pure (decide (25 * planarDistSq tip wrist < 36 * planarDistSq pip wrist))

/-- Gesture labels.  The source uses the strings
`Closed_Fist` / `Open_Palm` / `None`. -/
inductive Gesture where
  | None
  | ClosedFist
  | OpenPalm
deriving DecidableEq

/-- The gesture logic applied to one detected hand (the body of the
`results.landmarks.length > 0` branch of `detect`): wrist is landmark 0,
tips are `[8, 12, 16, 20]`, PIPs are `[6, 10, 14, 18]`; with three or more
curled fingers the label is `Closed_Fist`, otherwise `Open_Palm`, and the
hand counts as present.  `none` models the `TypeError` JavaScript throws
when an accessed landmark is `undefined`. -/
def classifyHand (lm : List Landmark) : Option (Gesture × Bool) := do
  let wrist ← lm[0]?
  let c0 ← fingerCurled lm wrist 8 6
  let c1 ← fingerCurled lm wrist 12 10
  let c2 ← fingerCurled lm wrist 16 14
  let c3 ← fingerCurled lm wrist 20 18
  let curledCount :=
    (if c0 then 1 else 0) + (if c1 then 1 else 0) +
      (if c2 then 1 else 0) + (if c3 then 1 else 0)
  if 3 ≤ curledCount then
    pure (Gesture.ClosedFist, true)
  else
    pure (Gesture.OpenPalm, true)

/-- Classifier state: `this.lastVideoTime`, initially `-1`. -/
structure VState where
  lastVideoTime : ℚ
deriving DecidableEq

/-- `VisionService.detect.`  `ready` models
`this.handLandmarker && this.video`; `w`/`h` are the video dimensions;
`hands` is `results.landmarks` (a list of per-hand landmark lists).
Returns the `{gesture, isPresent}` result (inside `Option`: `none` is an
uncaught `TypeError`) together with the updated state. -/
def detect (ready : Bool) (w h : ℕ) (st : VState) (currentTime : ℚ)
    (hands : List (List Landmark)) : Option (Gesture × Bool) × VState :=
  if ready = false then
    (some (Gesture.None, false), st)
  else if w = 0 ∨ h = 0 then
    (some (Gesture.None, false), st)
  else if currentTime ≠ st.lastVideoTime then
    let st2 : VState := { lastVideoTime := currentTime }
    match hands with
    | [] => (some (Gesture.None, false), st2)
    | lm :: _ => (classifyHand lm, st2)
  else
    (some (Gesture.None, false), st)

/-! ### src/App.tsx and the targetMode effect in ChristmasCanvas.tsx -/

/-- The two application modes. -/
inductive AppMode where
  | TREE
  | SPHERE
deriving DecidableEq

/-- The `useEffect` on `visionState.gesture` in App.tsx:
`Closed_Fist` sets `TREE`, `Open_Palm` sets `SPHERE`, anything else leaves
the mode alone. -/
def modeUpdate (m : AppMode) (g : Gesture) : AppMode :=
  match g with
  | Gesture.ClosedFist => AppMode.TREE
  | Gesture.OpenPalm => AppMode.SPHERE
  | Gesture.None => m

/-- The morph value the `targetMode` effect in ChristmasCanvas.tsx animates
toward: `0` for `TREE`, `1` for `SPHERE` (the `else` branch). -/
def morphTargetValue (m : AppMode) : ℚ :=
  match m with
  | AppMode.TREE => 0
  | AppMode.SPHERE => 1

/-! ### ChristmasCanvas.tsx — the per-frame `animate` body -/

/-- The morph loop body for particle `i` (treePositions and spherePositions
read at `i3 .. i3+2` are the components of `treeP` / `sphereP`):
linear interpolation of the base positions followed by the additive
breathing perturbation, exactly as in the source. -/
def morphStep (s c : ℚ → ℚ) (treeP sphereP : Vec3) (m t : ℚ) : Vec3 :=
  let targetX := treeP.x * (1 - m) + sphereP.x * m
  let targetY := treeP.y * (1 - m) + sphereP.y * m
  let targetZ := treeP.z * (1 - m) + sphereP.z * m
  let noiseFreq : ℚ := 0.5
  let noiseAmp : ℚ := 0.15
  let timeOffset := t * 1.5
  let breatheX := s (targetY * noiseFreq + timeOffset) * noiseAmp
  let breatheY := c (targetX * noiseFreq + timeOffset * 0.8) * noiseAmp * 0.5
  let breatheZ := s (targetY * noiseFreq + timeOffset * 1.2) * noiseAmp
  { x := targetX + breatheX, y := targetY + breatheY, z := targetZ + breatheZ }

/-- The whole particle position buffer written by one pass of the morph
loop: a pure function of the clouds, the morph value and the clock (the
previous buffer contents are fully overwritten). -/
def morphBuffer (s c : ℚ → ℚ) (count : ℕ) (tree sphere : ℕ → Vec3)
    (m t : ℚ) : List Vec3 :=
  (List.range count).map fun i => morphStep s c (tree i) (sphere i) m t

/-- Modelled from the spec: per-axis `lerp(a, b, m) = a + (b - a) * m`. -/
def lerpV (a b : Vec3) (m : ℚ) : Vec3 :=
  { x := a.x + (b.x - a.x) * m
    y := a.y + (b.y - a.y) * m
    z := a.z + (b.z - a.z) * m }

/-- Modelled from the spec: the additive perturbation
`(sin(baseY·0.5 + 1.5t)·0.15, cos(baseX·0.5 + 1.2t)·0.075,
sin(baseY·0.5 + 1.8t)·0.15)` at a base point. -/
def breatheV (s c : ℚ → ℚ) (base : Vec3) (t : ℚ) : Vec3 :=
  { x := s (base.y * 0.5 + 1.5 * t) * 0.15
    y := c (base.x * 0.5 + 1.2 * t) * 0.075
    z := s (base.y * 0.5 + 1.8 * t) * 0.15 }

/-- Componentwise sum. -/
def addV (a b : Vec3) : Vec3 :=
  { x := a.x + b.x, y := a.y + b.y, z := a.z + b.z }

/-- The snow update: each flake falls by its velocity and wraps from below
`-40` back to `40`; in the source this patches the existing buffer in
place, so the new y coordinates depend on the previous ones. -/
def snowStep (ys vels : List ℚ) : List ℚ :=
  (ys.zip vels).map fun p =>
    let y2 := p.1 - p.2
    if y2 < -40 then 40 else y2

/-- The per-frame buffers the `animate` body writes that the claims track:
the particle morph buffer, the snow y coordinates, and the star emissive
intensity. -/
structure FrameBuffers where
  morph : List Vec3
  snowY : List ℚ
  starIntensity : ℚ
deriving DecidableEq

/-- One `animate` frame restricted to those buffers: the morph buffer is
recomputed from scratch, the snow buffer is patched from its previous
value, and the star intensity is `sin(2.5t)·0.2 + 1.5 + (random − 0.5)·0.3`
with `random` the per-frame `Math.random()` draw. -/
def frameStep (s c : ℚ → ℚ) (count : ℕ) (tree sphere : ℕ → Vec3)
    (vels : List ℚ) (prev : FrameBuffers) (t m rand : ℚ) : FrameBuffers :=
  { morph := morphBuffer s c count tree sphere m t
    snowY := snowStep prev.snowY vels
    starIntensity := s (t * 2.5) * 0.2 + 1.5 + (rand - 0.5) * 0.3 }

/-! ### ChristmasCanvas.tsx — the chase choreography -/

/-- `const angle = time * orbitSpeed` with `orbitSpeed = 0.4`. -/
def chaseAngle (t : ℚ) : ℚ := t * 0.4

/-- Santa (the leader): angle `chaseAngle t + 0.8`, orbit radius 13,
`y = -7 + |sin(4t)| * 0.3`. -/
def santaPos (s c : ℚ → ℚ) (t : ℚ) : Vec3 :=
  { x := c (chaseAngle t + 0.8) * 13
    y := -7 + |s (t * 4)| * 0.3
    z := s (chaseAngle t + 0.8) * 13 }

/-- The snowman (follower 1): angle `chaseAngle t`, `y = -7 + |sin(3t)| * 0.5`. -/
def snowmanPos (s c : ℚ → ℚ) (t : ℚ) : Vec3 :=
  { x := c (chaseAngle t) * 13
    y := -7 + |s (t * 3)| * 0.5
    z := s (chaseAngle t) * 13 }

/-- The corgi (follower 2): angle `chaseAngle t - 0.8`, `y = -7.5 + |sin(8t)| * 0.2`. -/
def corgiPos (s c : ℚ → ℚ) (t : ℚ) : Vec3 :=
  { x := c (chaseAngle t - 0.8) * 13
    y := -7.5 + |s (t * 8)| * 0.2
    z := s (chaseAngle t - 0.8) * 13 }

/-- Modelled from the spec: an orbiting body at
`(radius·cos(phase), baseY + |sin(t·bobFreq)|·bobAmp, radius·sin(phase))`
with `radius = 13`. -/
def specOrbitPos (s c : ℚ → ℚ) (t phase baseY bobFreq bobAmp : ℚ) : Vec3 :=
  { x := 13 * c phase
    y := baseY + |s (t * bobFreq)| * bobAmp
    z := 13 * s phase }

/-- The hand used to refute claim C3: wrist at the origin, all four PIP
joints at `(1, 0)` and all four fingertips at `(1.1, 0)` — every tip is
strictly farther from the wrist than its joint, yet within the 20% slack
margin, so the classifier still counts every finger as curled. -/
def farTipsHand : List Landmark :=
  [ { x := 0, y := 0 },          -- 0: wrist
    { x := 0, y := 0 }, { x := 0, y := 0 }, { x := 0, y := 0 },
    { x := 0, y := 0 }, { x := 0, y := 0 },
    { x := 1, y := 0 },          -- 6: index PIP
    { x := 0, y := 0 },
    { x := 11/10, y := 0 },      -- 8: index tip
    { x := 0, y := 0 },
    { x := 1, y := 0 },          -- 10: middle PIP
    { x := 0, y := 0 },
    { x := 11/10, y := 0 },      -- 12: middle tip
    { x := 0, y := 0 },
    { x := 1, y := 0 },          -- 14: ring PIP
    { x := 0, y := 0 },
    { x := 11/10, y := 0 },      -- 16: ring tip
    { x := 0, y := 0 },
    { x := 1, y := 0 },          -- 18: pinky PIP
    { x := 0, y := 0 },
    { x := 11/10, y := 0 } ]     -- 20: pinky tip

/-! ### Helper lemmas -/

lemma planarDistSq_nonneg (p q : Landmark) : 0 ≤ planarDistSq p q := by
  unfold planarDistSq
  positivity

/-- Binding a constant `none` across any option yields `none` (used to
show the classifier propagates a failed landmark lookup). -/
lemma optionBindNone {α β : Type} (x : Option α) :
    (x.bind fun _ => (none : Option β)) = none := by
  cases x <;> rfl

/-- The comparison the source makes with `Math.hypot`,
`√a < √b · 1.2`, is exactly the rational comparison `25a < 36b`
(for nonnegative radicands). -/
lemma sqrt_lt_slack_iff (a b : ℚ) (ha : 0 ≤ a) (hb : 0 ≤ b) :
    Real.sqrt (a : ℝ) < Real.sqrt (b : ℝ) * 1.2 ↔ 25 * a < 36 * b := by
  have ha2 : (0 : ℝ) ≤ (a : ℝ) := by exact_mod_cast ha
  have hb2 : (0 : ℝ) ≤ (b : ℝ) := by exact_mod_cast hb
  have h12 : Real.sqrt (((b * (144 / 100) : ℚ) : ℝ)) = Real.sqrt (b : ℝ) * 1.2 := by
    rw [show ((b * (144 / 100) : ℚ) : ℝ) = (b : ℝ) * 1.2 ^ 2 by push_cast; norm_num,
      Real.sqrt_mul hb2, Real.sqrt_sq (by norm_num)]
  rw [← h12, Real.sqrt_lt_sqrt_iff ha2, Rat.cast_lt]
  constructor <;> intro h <;> linarith

/-- The morph loop body equals the spec formula: per-axis lerp plus the
breathe perturbation evaluated at the lerped base point. -/
lemma morphStep_eq_spec (s c : ℚ → ℚ) (a b : Vec3) (m t : ℚ) :
    morphStep s c a b m t =
      addV (lerpV a b m) (breatheV s c (lerpV a b m) t) := by
  simp only [morphStep, lerpV, breatheV, addV]
  ext
  · rw [show a.y * (1 - m) + b.y * m = a.y + (b.y - a.y) * m from by ring,
        show (a.y + (b.y - a.y) * m) * (0.5 : ℚ) + t * 1.5 =
          (a.y + (b.y - a.y) * m) * 0.5 + 1.5 * t from by ring]
    ring
  · rw [show a.x * (1 - m) + b.x * m = a.x + (b.x - a.x) * m from by ring,
        show (a.x + (b.x - a.x) * m) * (0.5 : ℚ) + t * 1.5 * 0.8 =
          (a.x + (b.x - a.x) * m) * 0.5 + 1.2 * t from by ring]
    ring
  · rw [show a.y * (1 - m) + b.y * m = a.y + (b.y - a.y) * m from by ring,
        show (a.y + (b.y - a.y) * m) * (0.5 : ℚ) + t * 1.5 * 1.2 =
          (a.y + (b.y - a.y) * m) * 0.5 + 1.8 * t from by ring]
    ring

lemma lerpV_zero (a b : Vec3) : lerpV a b 0 = a := by
  simp [lerpV]

lemma lerpV_one (a b : Vec3) : lerpV a b 1 = b := by
  ext <;> simp only [lerpV] <;> ring

/-! ### Claim theorems -/

/-- Claim C1: for every particle index `i`, time `t` and morph value
`m ∈ [0,1]`, the position the morph loop writes equals the per-axis
`lerp(treeCloud[i], sphereCloud[i], m)` plus the breathe perturbation
`(sin(baseY·0.5 + 1.5t)·0.15, cos(baseX·0.5 + 1.2t)·0.075,
sin(baseY·0.5 + 1.8t)·0.15)` evaluated at that lerped base point; in
particular at `m = 0` the buffer holds `treeCloud[i]` plus the
perturbation and at `m = 1` it holds `sphereCloud[i]` plus it. -/
theorem morph_equals_lerp_plus_breathe (s c : ℚ → ℚ) (tree sphere : ℕ → Vec3)
    (count i : ℕ) (m t : ℚ) (hm0 : 0 ≤ m) (hm1 : m ≤ 1) (hi : i < count) :
    (morphBuffer s c count tree sphere m t)[i]? =
      some (addV (lerpV (tree i) (sphere i) m)
        (breatheV s c (lerpV (tree i) (sphere i) m) t)) ∧
    (morphBuffer s c count tree sphere 0 t)[i]? =
      some (addV (tree i) (breatheV s c (tree i) t)) ∧
    (morphBuffer s c count tree sphere 1 t)[i]? =
      some (addV (sphere i) (breatheV s c (sphere i) t)) := by
  refine ⟨?_, ?_, ?_⟩ <;>
    simp [morphBuffer, List.getElem?_map, List.getElem?_range, hi,
      morphStep_eq_spec, lerpV_zero, lerpV_one]

/-- Witness for C1 at a concrete input: clouds with `tree 0 = (1,2,3)` and
`sphere 0 = (4,5,6)`, `m = 1/2`, `t = 1`, trivial trig (`s = 0`, `c = 1`). -/
theorem morph_equals_lerp_plus_breathe_witness :
    (morphBuffer (fun _ => 0) (fun _ => 1) 1 (fun _ => ⟨1, 2, 3⟩)
        (fun _ => ⟨4, 5, 6⟩) (1/2) 1)[0]? =
      some (addV (lerpV ⟨1, 2, 3⟩ ⟨4, 5, 6⟩ (1/2))
        (breatheV (fun _ => 0) (fun _ => 1) (lerpV ⟨1, 2, 3⟩ ⟨4, 5, 6⟩ (1/2)) 1)) ∧
    (morphBuffer (fun _ => 0) (fun _ => 1) 1 (fun _ => ⟨1, 2, 3⟩)
        (fun _ => ⟨4, 5, 6⟩) 0 1)[0]? =
      some (addV ⟨1, 2, 3⟩ (breatheV (fun _ => 0) (fun _ => 1) ⟨1, 2, 3⟩ 1)) ∧
    (morphBuffer (fun _ => 0) (fun _ => 1) 1 (fun _ => ⟨1, 2, 3⟩)
        (fun _ => ⟨4, 5, 6⟩) 1 1)[0]? =
      some (addV ⟨4, 5, 6⟩ (breatheV (fun _ => 0) (fun _ => 1) ⟨4, 5, 6⟩ 1)) :=
  morph_equals_lerp_plus_breathe (fun _ => 0) (fun _ => 1)
    (fun _ => ⟨1, 2, 3⟩) (fun _ => ⟨4, 5, 6⟩) 1 0 (1/2) 1
    (by norm_num) (by norm_num) (by norm_num)

/-- Claim C6: the mode-update step maps `Closed_Fist` to the mode whose
morph target is `0` (Tree), `Open_Palm` to the mode whose morph target is
`1` (Sphere), and label `None` leaves the current mode unchanged, for every
current mode. -/
theorem mode_update_mapping (m : AppMode) :
    modeUpdate m Gesture.ClosedFist = AppMode.TREE ∧
    morphTargetValue (modeUpdate m Gesture.ClosedFist) = 0 ∧
    modeUpdate m Gesture.OpenPalm = AppMode.SPHERE ∧
    morphTargetValue (modeUpdate m Gesture.OpenPalm) = 1 ∧
    modeUpdate m Gesture.None = m := by
  cases m <;> simp [modeUpdate, morphTargetValue]

/-- Counterexample for claim C9: the snow buffer is patched in place, not
fully overwritten, so running the frame update twice with identical
`(t, m)` inputs (and even an identical random draw) does not reproduce the
same buffers: one flake at `y = 0` with velocity `1` sits at `-1` after the
first call and `-2` after the second. -/
theorem frame_step_not_idempotent_cex :
    frameStep (fun _ => 0) (fun _ => 0) 0 (fun _ => ⟨0, 0, 0⟩)
        (fun _ => ⟨0, 0, 0⟩) [1]
        (frameStep (fun _ => 0) (fun _ => 0) 0 (fun _ => ⟨0, 0, 0⟩)
          (fun _ => ⟨0, 0, 0⟩) [1] ⟨[], [0], 0⟩ 0 0 0) 0 0 0 ≠
      frameStep (fun _ => 0) (fun _ => 0) 0 (fun _ => ⟨0, 0, 0⟩)
        (fun _ => ⟨0, 0, 0⟩) [1] ⟨[], [0], 0⟩ 0 0 0 := by
  intro h
  have h2 := congrArg FrameBuffers.snowY h
  norm_num [frameStep, snowStep] at h2

/-- Claim C9 as amended: the particle morph buffer is fully overwritten
each call — it is bit-identical across repeated calls with the same
`(t, m)` no matter what the previous buffers held and no matter the random
draw — while the snow buffer is an accumulating exception alongside the
star flicker: each call advances it by one `snowStep` from its previous
value. -/
theorem morph_buffer_fully_overwritten (s c : ℚ → ℚ) (count : ℕ)
    (tree sphere : ℕ → Vec3) (vels : List ℚ) (p1 p2 : FrameBuffers)
    (t m r1 r2 : ℚ) :
    (frameStep s c count tree sphere vels
        (frameStep s c count tree sphere vels p1 t m r1) t m r2).morph =
      (frameStep s c count tree sphere vels p1 t m r1).morph ∧
    (frameStep s c count tree sphere vels p1 t m r1).morph =
      (frameStep s c count tree sphere vels p2 t m r2).morph ∧
    (frameStep s c count tree sphere vels
        (frameStep s c count tree sphere vels p1 t m r1) t m r2).snowY =
      snowStep (snowStep p1.snowY vels) vels :=
  ⟨rfl, rfl, rfl⟩

/-- Counterexample for claim C10: at particle count `N = 0` (which the
claim says must fail) both generators succeed and return an empty position
array — `new Float32Array(0)` is legal and the generation loop simply never
runs, so no error surfaces to the caller. -/
theorem generators_succeed_at_zero_cex :
    generateTreePositionsJS trivOps rndZero 0 = some [] ∧
    generateSpherePositionsJS trivOps rndZero 0 = some [] := by
  constructor <;> rfl

/-- Claim C10 as amended: only a strictly negative particle count makes
generator construction fail (the `Float32Array` constructor rejects the
negative length before any point is produced), while `N = 0` succeeds and
returns an empty point cloud. -/
theorem generators_fail_on_negative (M : MathOps) (rnd : ℕ → ℚ) (n : ℤ) :
    (n < 0 → generateTreePositionsJS M rnd n = none ∧
      generateSpherePositionsJS M rnd n = none) ∧
    (n = 0 → generateTreePositionsJS M rnd n = some [] ∧
      generateSpherePositionsJS M rnd n = some []) := by
  constructor
  · intro hn
    have h3 : n * 3 < 0 := by linarith
    constructor <;>
      simp [generateTreePositionsJS, generateSpherePositionsJS,
        float32ArrayNew, h3]
  · rintro rfl
    constructor <;>
      simp [generateTreePositionsJS, generateSpherePositionsJS,
        float32ArrayNew, generateTreePositions, generateSpherePositions]

/-- Witness for the amended C10 at `n = -1` and `n = 0`. -/
theorem generators_fail_on_negative_witness :
    (generateTreePositionsJS trivOps rndZero (-1) = none ∧
      generateSpherePositionsJS trivOps rndZero (-1) = none) ∧
    (generateTreePositionsJS trivOps rndZero 0 = some [] ∧
      generateSpherePositionsJS trivOps rndZero 0 = some []) :=
  ⟨(generators_fail_on_negative trivOps rndZero (-1)).1 (by norm_num),
    (generators_fail_on_negative trivOps rndZero 0).2 rfl⟩

/-- Claim C2: on a full 21-point hand frame in which every fingertip
(landmarks 8, 12, 16, 20) is strictly closer to the wrist (landmark 0) in
planar Euclidean distance than its proximal joint (landmarks 6, 10, 14,
18), the classifier returns `Closed_Fist` with presence `true` (all four
fingers count as curled, and 4 ≥ 3). -/
theorem classify_all_tips_closer_closed_fist
    (p0 p1 p2 p3 p4 p5 p6 p7 p8 p9 p10 p11 p12 p13 p14 p15 p16 p17 p18 p19
      p20 : Landmark)
    (h8 : Real.sqrt ((planarDistSq p8 p0 : ℚ) : ℝ) <
      Real.sqrt ((planarDistSq p6 p0 : ℚ) : ℝ))
    (h12 : Real.sqrt ((planarDistSq p12 p0 : ℚ) : ℝ) <
      Real.sqrt ((planarDistSq p10 p0 : ℚ) : ℝ))
    (h16 : Real.sqrt ((planarDistSq p16 p0 : ℚ) : ℝ) <
      Real.sqrt ((planarDistSq p14 p0 : ℚ) : ℝ))
    (h20 : Real.sqrt ((planarDistSq p20 p0 : ℚ) : ℝ) <
      Real.sqrt ((planarDistSq p18 p0 : ℚ) : ℝ)) :
    classifyHand [p0, p1, p2, p3, p4, p5, p6, p7, p8, p9, p10, p11, p12, p13,
      p14, p15, p16, p17, p18, p19, p20] = some (Gesture.ClosedFist, true) := by
  have q8 : planarDistSq p8 p0 < planarDistSq p6 p0 := by
    have := (Real.sqrt_lt_sqrt_iff
      (by exact_mod_cast planarDistSq_nonneg p8 p0)).mp h8
    exact_mod_cast this
  have q12 : planarDistSq p12 p0 < planarDistSq p10 p0 := by
    have := (Real.sqrt_lt_sqrt_iff
      (by exact_mod_cast planarDistSq_nonneg p12 p0)).mp h12
    exact_mod_cast this
  have q16 : planarDistSq p16 p0 < planarDistSq p14 p0 := by
    have := (Real.sqrt_lt_sqrt_iff
      (by exact_mod_cast planarDistSq_nonneg p16 p0)).mp h16
    exact_mod_cast this
  have q20 : planarDistSq p20 p0 < planarDistSq p18 p0 := by
    have := (Real.sqrt_lt_sqrt_iff
      (by exact_mod_cast planarDistSq_nonneg p20 p0)).mp h20
    exact_mod_cast this
  have c8 : 25 * planarDistSq p8 p0 < 36 * planarDistSq p6 p0 := by
    have := planarDistSq_nonneg p6 p0; linarith
  have c12 : 25 * planarDistSq p12 p0 < 36 * planarDistSq p10 p0 := by
    have := planarDistSq_nonneg p10 p0; linarith
  have c16 : 25 * planarDistSq p16 p0 < 36 * planarDistSq p14 p0 := by
    have := planarDistSq_nonneg p14 p0; linarith
  have c20 : 25 * planarDistSq p20 p0 < 36 * planarDistSq p18 p0 := by
    have := planarDistSq_nonneg p18 p0; linarith
  simp [classifyHand, fingerCurled, c8, c12, c16, c20]

/-- Witness for C2: wrist at the origin, all four tips at `(1/2, 0)`
(distance `1/2`), all four PIP joints at `(1, 0)` (distance `1`). -/
theorem classify_all_tips_closer_closed_fist_witness :
    Real.sqrt ((planarDistSq ⟨1/2, 0⟩ ⟨0, 0⟩ : ℚ) : ℝ) <
      Real.sqrt ((planarDistSq ⟨1, 0⟩ ⟨0, 0⟩ : ℚ) : ℝ) ∧
    classifyHand [⟨0, 0⟩, ⟨0, 0⟩, ⟨0, 0⟩, ⟨0, 0⟩, ⟨0, 0⟩, ⟨0, 0⟩,
      ⟨1, 0⟩, ⟨0, 0⟩, ⟨1/2, 0⟩, ⟨0, 0⟩, ⟨1, 0⟩, ⟨0, 0⟩, ⟨1/2, 0⟩, ⟨0, 0⟩,
      ⟨1, 0⟩, ⟨0, 0⟩, ⟨1/2, 0⟩, ⟨0, 0⟩, ⟨1, 0⟩, ⟨0, 0⟩, ⟨1/2, 0⟩] =
      some (Gesture.ClosedFist, true) :=
  ⟨Real.sqrt_lt_sqrt (by norm_num [planarDistSq]) (by norm_num [planarDistSq]),
    classify_all_tips_closer_closed_fist
      ⟨0, 0⟩ ⟨0, 0⟩ ⟨0, 0⟩ ⟨0, 0⟩ ⟨0, 0⟩ ⟨0, 0⟩ ⟨1, 0⟩ ⟨0, 0⟩ ⟨1/2, 0⟩ ⟨0, 0⟩
      ⟨1, 0⟩ ⟨0, 0⟩ ⟨1/2, 0⟩ ⟨0, 0⟩ ⟨1, 0⟩ ⟨0, 0⟩ ⟨1/2, 0⟩ ⟨0, 0⟩ ⟨1, 0⟩
      ⟨0, 0⟩ ⟨1/2, 0⟩
      (Real.sqrt_lt_sqrt (by norm_num [planarDistSq]) (by norm_num [planarDistSq]))
      (Real.sqrt_lt_sqrt (by norm_num [planarDistSq]) (by norm_num [planarDistSq]))
      (Real.sqrt_lt_sqrt (by norm_num [planarDistSq]) (by norm_num [planarDistSq]))
      (Real.sqrt_lt_sqrt (by norm_num [planarDistSq]) (by norm_num [planarDistSq]))⟩

/-- Counterexample for claim C3: in `farTipsHand` every fingertip is
strictly farther from the wrist than its proximal joint (squared planar
distance `121/100 > 1`, hence distance `1.1 > 1`), yet because
`1.1 < 1 × 1.2` every finger still counts as curled under the 20% slack
margin and the classifier returns `Closed_Fist`, not `Open_Palm`. -/
theorem classify_strictly_farther_not_open_palm_cex :
    planarDistSq { x := 11/10, y := 0 } { x := 0, y := 0 } >
        planarDistSq { x := 1, y := 0 } { x := 0, y := 0 } ∧
    classifyHand farTipsHand = some (Gesture.ClosedFist, true) ∧
    classifyHand farTipsHand ≠ some (Gesture.OpenPalm, true) := by
  refine ⟨by norm_num [planarDistSq], ?_, ?_⟩ <;>
    norm_num [classifyHand, farTipsHand, fingerCurled, planarDistSq] <;>
    decide

/-- Claim C3 as amended: the classifier returns `Open_Palm` with presence
`true` once every fingertip clears the 20% slack margin — for each finger
`dTip ≥ 1.2 · dPip`, stated in the equivalent exact squared form
`36 · dPip² ≤ 25 · dTip²` (see `sqrt_lt_slack_iff`); then no finger counts
as curled and `0 < 3`. -/
theorem classify_tips_beyond_slack_open_palm
    (p0 p1 p2 p3 p4 p5 p6 p7 p8 p9 p10 p11 p12 p13 p14 p15 p16 p17 p18 p19
      p20 : Landmark)
    (h8 : 36 * planarDistSq p6 p0 ≤ 25 * planarDistSq p8 p0)
    (h12 : 36 * planarDistSq p10 p0 ≤ 25 * planarDistSq p12 p0)
    (h16 : 36 * planarDistSq p14 p0 ≤ 25 * planarDistSq p16 p0)
    (h20 : 36 * planarDistSq p18 p0 ≤ 25 * planarDistSq p20 p0) :
    classifyHand [p0, p1, p2, p3, p4, p5, p6, p7, p8, p9, p10, p11, p12, p13,
      p14, p15, p16, p17, p18, p19, p20] = some (Gesture.OpenPalm, true) := by
  have n8 := not_lt.mpr h8
  have n12 := not_lt.mpr h12
  have n16 := not_lt.mpr h16
  have n20 := not_lt.mpr h20
  simp [classifyHand, fingerCurled, n8, n12, n16, n20]

/-- Witness for the amended C3: wrist at the origin, tips at `(2, 0)`,
PIP joints at `(1, 0)`: `36 · 1 ≤ 25 · 4`. -/
theorem classify_tips_beyond_slack_open_palm_witness :
    36 * planarDistSq ⟨1, 0⟩ ⟨0, 0⟩ ≤ 25 * planarDistSq ⟨2, 0⟩ ⟨0, 0⟩ ∧
    classifyHand [⟨0, 0⟩, ⟨0, 0⟩, ⟨0, 0⟩, ⟨0, 0⟩, ⟨0, 0⟩, ⟨0, 0⟩,
      ⟨1, 0⟩, ⟨0, 0⟩, ⟨2, 0⟩, ⟨0, 0⟩, ⟨1, 0⟩, ⟨0, 0⟩, ⟨2, 0⟩, ⟨0, 0⟩,
      ⟨1, 0⟩, ⟨0, 0⟩, ⟨2, 0⟩, ⟨0, 0⟩, ⟨1, 0⟩, ⟨0, 0⟩, ⟨2, 0⟩] =
      some (Gesture.OpenPalm, true) :=
  ⟨by norm_num [planarDistSq],
    classify_tips_beyond_slack_open_palm
      ⟨0, 0⟩ ⟨0, 0⟩ ⟨0, 0⟩ ⟨0, 0⟩ ⟨0, 0⟩ ⟨0, 0⟩ ⟨1, 0⟩ ⟨0, 0⟩ ⟨2, 0⟩ ⟨0, 0⟩
      ⟨1, 0⟩ ⟨0, 0⟩ ⟨2, 0⟩ ⟨0, 0⟩ ⟨1, 0⟩ ⟨0, 0⟩ ⟨2, 0⟩ ⟨0, 0⟩ ⟨1, 0⟩
      ⟨0, 0⟩ ⟨2, 0⟩
      (by norm_num [planarDistSq]) (by norm_num [planarDistSq])
      (by norm_num [planarDistSq]) (by norm_num [planarDistSq])⟩

/-- Claim C4: with no hand landmarks, or with a frame timestamp equal to
the previously processed one, `detect` returns `(None, false)`, and the
mode-update step on label `None` keeps whatever mode was last set. -/
theorem detect_no_frame_or_no_hands (ready : Bool) (w h : ℕ) (st : VState)
    (t : ℚ) (hands : List (List Landmark)) (mode : AppMode)
    (hcase : hands = [] ∨ t = st.lastVideoTime) :
    (detect ready w h st t hands).1 = some (Gesture.None, false) ∧
    modeUpdate mode Gesture.None = mode := by
  constructor
  · rcases hcase with rfl | heq
    · unfold detect
      split_ifs <;> simp
    · unfold detect
      split_ifs <;> simp_all
  · simp [modeUpdate]

/-- Witness for C4: a ready service with a 2×2 video, one detected hand,
but a repeated timestamp `5`, while the engine sits in `SPHERE` mode. -/
theorem detect_no_frame_or_no_hands_witness :
    (([[(⟨0, 0⟩ : Landmark)]] : List (List Landmark)) = [] ∨
      (5 : ℚ) = VState.lastVideoTime ⟨5⟩) ∧
    (detect true 2 2 ⟨5⟩ 5 [[⟨0, 0⟩]]).1 = some (Gesture.None, false) ∧
    modeUpdate AppMode.SPHERE Gesture.None = AppMode.SPHERE :=
  ⟨Or.inr rfl,
    detect_no_frame_or_no_hands true 2 2 ⟨5⟩ 5 [[⟨0, 0⟩]] AppMode.SPHERE
      (Or.inr rfl)⟩

/-- Claim C5 (the code contradicts it): on a landmark list that is present
but has fewer than the required 21 points, the classifier does not fail
closed with `(None, false)` — its landmark indexing reaches an `undefined`
access (landmark 20 at the latest, the wrist at the earliest), which in
JavaScript throws a `TypeError`; in the embedding the run ends in the
error state `none`, which is not the value `(None, false)` the claim
requires. -/
theorem classify_short_hand_errors (lm : List Landmark)
    (h : lm.length < 21) :
    classifyHand lm = none ∧
    classifyHand lm ≠ some (Gesture.None, false) := by
  have hmain : classifyHand lm = none := by
    rcases h0 : lm[0]? with _ | wrist
    · simp [classifyHand, h0]
    · have h20 : lm[20]? = none := by
        rw [List.getElem?_eq_none]
        omega
      simp [classifyHand, fingerCurled, h0, h20, optionBindNone]
  exact ⟨hmain, by simp [hmain]⟩

/-- Witness for C5: a single-landmark hand (only the wrist). -/
theorem classify_short_hand_errors_witness :
    ([(⟨0, 0⟩ : Landmark)].length < 21) ∧
    classifyHand [(⟨0, 0⟩ : Landmark)] = none :=
  ⟨by norm_num, (classify_short_hand_errors [⟨0, 0⟩] (by norm_num)).1⟩

/-- Claim C7: for every particle count, both generators emit exactly
`count` points (flat arrays of length `3·count`); every Tree point has a
nonnegative radius from the vertical axis (its `x`/`z` components realise
exactly the clamped radius `finalR = max 0 r ≥ 0`), and every Sphere point
lies within `[1.5, 8]` of the origin — stated on squared distances, which
is equivalent since both sides are nonnegative; in particular no Sphere
point lies strictly inside radius `1.5`.  The hypotheses say only that the
random draws lie in `[0,1)` and that `sinf`/`cosf` satisfy the Pythagorean
identity, as the real `sin`/`cos` do. -/
theorem generators_count_and_radius (M : MathOps) (rnd : ℕ → ℚ) (count i : ℕ)
    (hr : ∀ k, 0 ≤ rnd k ∧ rnd k < 1)
    (hsc : ∀ a, M.sinf a ^ 2 + M.cosf a ^ 2 = 1) :
    (generateTreePositions M rnd count).length = 3 * count ∧
    (generateSpherePositions M rnd count).length = 3 * count ∧
    (0 ≤ treeFinalR M rnd i ∧
      (treePoint M rnd i).x ^ 2 + (treePoint M rnd i).z ^ 2 =
        treeFinalR M rnd i ^ 2) ∧
    ((3/2 : ℚ) ^ 2 ≤
        (spherePoint M rnd i).x ^ 2 + (spherePoint M rnd i).y ^ 2 +
          (spherePoint M rnd i).z ^ 2 ∧
      (spherePoint M rnd i).x ^ 2 + (spherePoint M rnd i).y ^ 2 +
          (spherePoint M rnd i).z ^ 2 ≤ 8 ^ 2) := by
  refine ⟨?_, ?_, ⟨le_max_left 0 _, ?_⟩, ?_⟩
  · simp [generateTreePositions, List.length_flatMap, Function.comp_def,
      List.map_const', List.sum_replicate, smul_eq_mul, Nat.mul_comm]
  · simp [generateSpherePositions, List.length_flatMap, Function.comp_def,
      List.map_const', List.sum_replicate, smul_eq_mul, Nat.mul_comm]
  · simp only [treePoint]
    linear_combination (treeFinalR M rnd i ^ 2) * hsc (treeSpiralAngle M rnd i)
  · have h0 := (hr (4 * i + 3)).1
    have h1 := (hr (4 * i + 3)).2
    have hrn0 : 0 ≤ sphereRNorm rnd i := by
      unfold sphereRNorm
      split_ifs
      · nlinarith
      · nlinarith
    have hrn1 : sphereRNorm rnd i ≤ 1 := by
      unfold sphereRNorm
      split_ifs
      · nlinarith
      · nlinarith
    have hra : (3/2 : ℚ) ≤ sphereRadius rnd i := by
      unfold sphereRadius; nlinarith
    have hrb : sphereRadius rnd i ≤ 8 := by
      unfold sphereRadius; nlinarith
    have hd : (spherePoint M rnd i).x ^ 2 + (spherePoint M rnd i).y ^ 2 +
        (spherePoint M rnd i).z ^ 2 = sphereRadius rnd i ^ 2 := by
      simp only [spherePoint]
      linear_combination
        (sphereRadius rnd i ^ 2 * M.sinf (spherePhi M rnd i) ^ 2) *
            hsc (sphereTheta M rnd i) +
          (sphereRadius rnd i ^ 2) * hsc (spherePhi M rnd i)
    rw [hd]
    constructor <;> nlinarith

/-- Witness for C7 with the trivial operations, the all-zero stream,
`count = 2`, point index `0`. -/
theorem generators_count_and_radius_witness :
    (generateTreePositions trivOps rndZero 2).length = 3 * 2 ∧
    (generateSpherePositions trivOps rndZero 2).length = 3 * 2 ∧
    (0 ≤ treeFinalR trivOps rndZero 0 ∧
      (treePoint trivOps rndZero 0).x ^ 2 + (treePoint trivOps rndZero 0).z ^ 2 =
        treeFinalR trivOps rndZero 0 ^ 2) ∧
    ((3/2 : ℚ) ^ 2 ≤
        (spherePoint trivOps rndZero 0).x ^ 2 +
          (spherePoint trivOps rndZero 0).y ^ 2 +
          (spherePoint trivOps rndZero 0).z ^ 2 ∧
      (spherePoint trivOps rndZero 0).x ^ 2 +
          (spherePoint trivOps rndZero 0).y ^ 2 +
          (spherePoint trivOps rndZero 0).z ^ 2 ≤ 8 ^ 2) :=
  generators_count_and_radius trivOps rndZero 2 0
    (fun _ => ⟨by norm_num [rndZero], by norm_num [rndZero]⟩)
    (fun _ => by norm_num [trivOps])

/-- Claim C8: the three choreographed bodies share the orbit angle
`a(t) = 0.4t` with phase offsets `+0.8` (Santa, the leader), `0` (the
snowman) and `-0.8` (the corgi), each at the spec position
`(13·cos(phase), baseY + |sin(t·bobFreq)|·bobAmp, 13·sin(phase))` with
distinct bob frequencies `4`, `3`, `8`; every body stays on the orbit
radius `13` (`x² + z² = 13²`), and at `t = 0` the three phases are `0.8`,
`0` and `-0.8`. -/
theorem chase_choreography (s c : ℚ → ℚ) (t : ℚ)
    (hsc : ∀ a, s a ^ 2 + c a ^ 2 = 1) :
    santaPos s c t = specOrbitPos s c t (0.4 * t + 0.8) (-7) 4 0.3 ∧
    snowmanPos s c t = specOrbitPos s c t (0.4 * t) (-7) 3 0.5 ∧
    corgiPos s c t = specOrbitPos s c t (0.4 * t - 0.8) (-7.5) 8 0.2 ∧
    (santaPos s c t).x ^ 2 + (santaPos s c t).z ^ 2 = 13 ^ 2 ∧
    (snowmanPos s c t).x ^ 2 + (snowmanPos s c t).z ^ 2 = 13 ^ 2 ∧
    (corgiPos s c t).x ^ 2 + (corgiPos s c t).z ^ 2 = 13 ^ 2 ∧
    chaseAngle 0 + 0.8 = 0.8 ∧ chaseAngle 0 = 0 ∧
      chaseAngle 0 - 0.8 = -0.8 := by
  have harg : chaseAngle t = 0.4 * t := by unfold chaseAngle; ring
  refine ⟨?_, ?_, ?_, ?_, ?_, ?_, by norm_num [chaseAngle],
    by norm_num [chaseAngle], by norm_num [chaseAngle]⟩
  · ext <;> simp only [santaPos, specOrbitPos, harg] <;> ring
  · ext <;> simp only [snowmanPos, specOrbitPos, harg] <;> ring
  · ext <;> simp only [corgiPos, specOrbitPos, harg] <;> ring
  · simp only [santaPos]
    linear_combination (169 : ℚ) * hsc (chaseAngle t + 0.8)
  · simp only [snowmanPos]
    linear_combination (169 : ℚ) * hsc (chaseAngle t)
  · simp only [corgiPos]
    linear_combination (169 : ℚ) * hsc (chaseAngle t - 0.8)

/-- Witness for C8 with trivial trig (`s = 0`, `c = 1`) at `t = 1`. -/
theorem chase_choreography_witness :
    santaPos (fun _ => 0) (fun _ => 1) 1 =
      specOrbitPos (fun _ => 0) (fun _ => 1) 1 (0.4 * 1 + 0.8) (-7) 4 0.3 ∧
    snowmanPos (fun _ => 0) (fun _ => 1) 1 =
      specOrbitPos (fun _ => 0) (fun _ => 1) 1 (0.4 * 1) (-7) 3 0.5 ∧
    corgiPos (fun _ => 0) (fun _ => 1) 1 =
      specOrbitPos (fun _ => 0) (fun _ => 1) 1 (0.4 * 1 - 0.8) (-7.5) 8 0.2 ∧
    (santaPos (fun _ => 0) (fun _ => 1) 1).x ^ 2 +
        (santaPos (fun _ => 0) (fun _ => 1) 1).z ^ 2 = 13 ^ 2 ∧
    (snowmanPos (fun _ => 0) (fun _ => 1) 1).x ^ 2 +
        (snowmanPos (fun _ => 0) (fun _ => 1) 1).z ^ 2 = 13 ^ 2 ∧
    (corgiPos (fun _ => 0) (fun _ => 1) 1).x ^ 2 +
        (corgiPos (fun _ => 0) (fun _ => 1) 1).z ^ 2 = 13 ^ 2 ∧
    chaseAngle 0 + 0.8 = 0.8 ∧ chaseAngle 0 = 0 ∧
      chaseAngle 0 - 0.8 = -0.8 :=
  chase_choreography (fun _ => 0) (fun _ => 1) 1 (fun _ => by norm_num)
